import Mathlib

/-
  Verification of the AGiD example client (src/examples/python-client.py).

  The file embeds the Python module shallowly:
    - `Json` models the JSON values exchanged with the remote service;
    - `HttpRequest` models a request the `requests` library would send
      (method, full URL, optional JSON body);
    - a `Transport` is an oracle standing for the network: it maps each
      request either to a transport-level failure (what `requests` raises as
      a `ConnectionError`) or to a response with a status code and a body,
      where the body is recorded already parsed (`some j`) or as unparseable
      text (`none`, on which `response.json()` raises a decode error);
    - `AGIdentityClient` and its five operations mirror the Python class
      line by line; each operation returns its result together with the
      (unchanged) client, making the state passing of `self` explicit;
    - `pythonMain` models the demonstration driver under `if __name__`,
      with dictionary subscripts and the string slices it performs made
      explicit, and `pythonMainExit` its process exit code (a Python
      process exits 0 normally and 1 on an uncaught exception).
-/

/-- A JSON value: the data exchanged with the remote service. Numbers are
modelled as integers, which covers every value appearing in this module
(the balance field). -/
inductive Json where
  | null
  | bool (b : Bool)
  | num (n : Int)
  | str (s : String)
  | arr (elems : List Json)
  | obj (members : List (String × Json))

/-- Errors a call can surface, mirroring the Python exceptions that can
escape the module: a `requests` connection error, a JSON decode error from
`response.json()`, a `KeyError` from a dictionary subscript in the driver,
and a `TypeError` from subscripting or slicing a non-object value. -/
inductive PyError where
  | networkError
  | jsonDecodeError
  | keyError (key : String)
  | typeError
deriving DecidableEq

/-- HTTP method; the module only ever uses GET and POST. -/
inductive Method where
  | GET
  | POST
deriving DecidableEq

/-- A request as handed to the `requests` library: method, full URL and the
optional JSON body (the `json=` keyword argument). -/
structure HttpRequest where
  method : Method
  url : String
  body : Option Json

/-- What the network does with one request: either a transport-level
connection failure, or a response carrying a status code and a body,
recorded as parsed JSON when it parses and `none` when it does not. -/
inductive TransportResult where
  | failure
  | response (status : Nat) (body : Option Json)

/-- The network oracle: every behaviour of the remote service (or of the
network in between) is one such function. -/
abbrev Transport := HttpRequest → TransportResult

/-- Sending a request and calling `response.json()` on the result, exactly
as every method of the client does. The status code is ignored, because the
source never consults `response.status_code` and never calls
`raise_for_status`. -/
def performRequest (t : Transport) (req : HttpRequest) : Except PyError Json :=
  match t req with
  | .failure => .error .networkError
  | .response _ none => .error .jsonDecodeError
  | .response _ (some j) => .ok j

/-- The module-level constant `AGID_API`. -/
def AGID_API : String := "http://localhost:3000"

/-- The client class: its only attribute is `api_url`, set in `__init__`. -/
structure AGIdentityClient where
  api_url : String

namespace AGIdentityClient

/-- The constructor `__init__(self, api_url=AGID_API)`. -/
def init (api_url : String := AGID_API) : AGIdentityClient :=
  { api_url := api_url }

/-- The request `get_identity` builds: GET on `f"{self.api_url}/api/identity"`
with no body. -/
def get_identity_request (c : AGIdentityClient) : HttpRequest :=
  { method := .GET, url := c.api_url ++ "/api/identity", body := none }

/-- The request `sign` builds: POST on `f"{self.api_url}/api/sign"` with body
`{"message": message, "protocol": protocol}`. -/
def sign_request (c : AGIdentityClient) (message : String)
    (protocol : String := "agent message") : HttpRequest :=
  { method := .POST, url := c.api_url ++ "/api/sign",
    body := some (.obj [("message", .str message), ("protocol", .str protocol)]) }

/-- The request `encrypt` builds: POST on `f"{self.api_url}/api/encrypt"` with
body `{"data": data, "protocol": protocol, "keyId": key_id, "counterparty":
counterparty}`. -/
def encrypt_request (c : AGIdentityClient) (data : String)
    (protocol : String := "agent memory") (key_id : String := "default")
    (counterparty : String := "self") : HttpRequest :=
  { method := .POST, url := c.api_url ++ "/api/encrypt",
    body := some (.obj [("data", .str data), ("protocol", .str protocol),
      ("keyId", .str key_id), ("counterparty", .str counterparty)]) }

/-- The request `decrypt` builds: POST on `f"{self.api_url}/api/decrypt"` with
body `{"ciphertext": ciphertext, "protocol": protocol, "keyId": key_id,
"counterparty": counterparty}`. -/
def decrypt_request (c : AGIdentityClient) (ciphertext : String)
    (protocol : String := "agent memory") (key_id : String := "default")
    (counterparty : String := "self") : HttpRequest :=
  { method := .POST, url := c.api_url ++ "/api/decrypt",
    body := some (.obj [("ciphertext", .str ciphertext), ("protocol", .str protocol),
      ("keyId", .str key_id), ("counterparty", .str counterparty)]) }

/-- The request `check_balance` builds: GET on `f"{self.api_url}/api/balance"`
with no body. -/
def check_balance_request (c : AGIdentityClient) : HttpRequest :=
  { method := .GET, url := c.api_url ++ "/api/balance", body := none }

/-- `get_identity(self)`: issue the GET and return `response.json()`. The
second component is the client after the call; the method body never assigns
to `self`, so it is the client itself. -/
def get_identity (c : AGIdentityClient) (t : Transport) :
    Except PyError Json × AGIdentityClient :=
  (performRequest t c.get_identity_request, c)

/-- `sign(self, message, protocol="agent message")`. -/
def sign (c : AGIdentityClient) (t : Transport) (message : String)
    (protocol : String := "agent message") :
    Except PyError Json × AGIdentityClient :=
  (performRequest t (c.sign_request message protocol), c)

/-- `encrypt(self, data, protocol="agent memory", key_id="default",
counterparty="self")`. -/
def encrypt (c : AGIdentityClient) (t : Transport) (data : String)
    (protocol : String := "agent memory") (key_id : String := "default")
    (counterparty : String := "self") :
    Except PyError Json × AGIdentityClient :=
  (performRequest t (c.encrypt_request data protocol key_id counterparty), c)

/-- `decrypt(self, ciphertext, protocol="agent memory", key_id="default",
counterparty="self")`. -/
def decrypt (c : AGIdentityClient) (t : Transport) (ciphertext : String)
    (protocol : String := "agent memory") (key_id : String := "default")
    (counterparty : String := "self") :
    Except PyError Json × AGIdentityClient :=
  (performRequest t (c.decrypt_request ciphertext protocol key_id counterparty), c)

/-- `check_balance(self)`. -/
def check_balance (c : AGIdentityClient) (t : Transport) :
    Except PyError Json × AGIdentityClient :=
  (performRequest t c.check_balance_request, c)

end AGIdentityClient

/-- Looking a key up in the member list of a JSON object, first match wins,
as for a Python dict built from distinct literal keys. -/
def lookupField : List (String × Json) → String → Except PyError Json
  | [], key => .error (.keyError key)
  | (k, v) :: rest, key => if k = key then .ok v else lookupField rest key

/-- A Python subscript `value[key]`: a `KeyError` when the object lacks the
key, a `TypeError` when the value is not an object. -/
def Json.getItem (j : Json) (key : String) : Except PyError Json :=
  match j with
  | .obj members => lookupField members key
  | _ => .error .typeError

/-- The driver slices several response fields (`[:32]`, `[:64]`); slicing
requires text, so this extracts the string of a JSON value and raises
`TypeError` otherwise. -/
def Json.asString : Json → Except PyError String
  | .str s => .ok s
  | _ => .error .typeError

/-- The demonstration driver under `if __name__ == "__main__"`: construct a
client with the default URL and perform the five calls in order, between
them subscripting the fields it prints. An exception anywhere aborts the
rest; nothing is caught. Print statements themselves have no effect beyond
the field accesses made explicit here. -/
def pythonMain (t : Transport) : Except PyError Unit := do
  let agent := AGIdentityClient.init
  let identity ← (agent.get_identity t).1
  let pk ← identity.getItem "publicKey"
  let _ ← pk.asString
  let sig ← (agent.sign t "I am a Python agent with onchain identity").1
  let sg ← sig.getItem "signature"
  let _ ← sg.asString
  let encrypted ← (agent.encrypt t "My secret memory").1
  let ctJson ← encrypted.getItem "ciphertext"
  let ct ← ctJson.asString
  let decrypted ← (agent.decrypt t ct).1
  let _ ← decrypted.getItem "plaintext"
  let balance ← (agent.check_balance t).1
  let _ ← balance.getItem "balance"
  pure ()

/-- The process exit code of the driver: 0 on a normal run, 1 when an
uncaught exception terminates the interpreter. -/
def pythonMainExit (t : Transport) : Nat :=
  match pythonMain t with
  | .ok _ => 0
  | .error _ => 1

/-- Modelled from the spec: the remote identity/crypto service is not part
of the repository (the source calls it over HTTP). Only the encryption and
decryption primitives are needed here: an encryption function from the
context triple (protocol tag, key identifier, counterparty) and a plaintext
to a ciphertext, and a decryption function that may fail. -/
structure SpecServer where
  enc : String → String → String → String → String
  dec : String → String → String → String → Option String

/-- Modelled from the spec, section 8: a conforming service decrypts, under
the same protocol, key identifier and counterparty, every ciphertext its
encryption produced from a non-empty text, back to that text. -/
def SpecServer.roundTrip (sv : SpecServer) : Prop :=
  ∀ p k c d, d ≠ "" → sv.dec p k c (sv.enc p k c d) = some d

/-- Modelled from the spec, section 6: the transport behaviour of a running
service for the two cryptographic endpoints. The client makes the two POST
bodies distinct by their field names, so the handler discriminates on the
body: a `data` object is an encryption request, answered 200 with a
`ciphertext` field; a `ciphertext` object is a decryption request, answered
200 with a `plaintext` field on success and 400 on failure; anything else
is answered 404. -/
def serverTransport (sv : SpecServer) : Transport := fun req =>
  match req.method, req.body with
  | .POST, some (.obj [("data", .str d), ("protocol", .str p),
      ("keyId", .str k), ("counterparty", .str c)]) =>
    .response 200 (some (.obj [("ciphertext", .str (sv.enc p k c d))]))
  | .POST, some (.obj [("ciphertext", .str ct), ("protocol", .str p),
      ("keyId", .str k), ("counterparty", .str c)]) =>
    match sv.dec p k c ct with
    | some pt => .response 200 (some (.obj [("plaintext", .str pt)]))
    | none => .response 400 (some (.obj [("error", .str "decryption failed")]))
  | _, _ => .response 404 none

/-- A transport that answers every request with status 200 and the empty
JSON object. Every HTTP call on it succeeds and parses. -/
def emptyObjTransport : Transport := fun _ => .response 200 (some (.obj []))

/-- A transport on which the service answers every request with the
non-success status 404 and a parseable JSON error body. -/
def notFoundTransport : Transport :=
  fun _ => .response 404 (some (.obj [("error", .str "not found")]))

/-- A transport on which every connection attempt fails at the transport
level, as when the base URL points at a closed port. -/
def downTransport : Transport := fun _ => .failure

/-- A conforming service instance used as a witness: encryption is the
identity on the plaintext and decryption is the identity on the
ciphertext, which satisfies the round-trip contract. -/
def idServer : SpecServer :=
  { enc := fun _ _ _ d => d, dec := fun _ _ _ ct => some ct }

/-- How one sent request is decoded, split by the three transport outcomes:
a connection failure surfaces as a network error, a response with a
parseable body is returned as that body whatever the status, and a
response with an unparseable body surfaces as a JSON decode error. -/
theorem performRequest_cases (t : Transport) (req : HttpRequest) :
    (t req = .failure → performRequest t req = .error .networkError) ∧
    (∀ s j, t req = .response s (some j) → performRequest t req = .ok j) ∧
    (∀ s, t req = .response s none → performRequest t req = .error .jsonDecodeError) := by
  refine ⟨fun h => ?_, fun s j h => ?_, fun s h => ?_⟩ <;> simp [performRequest, h]

/-- C1: every operation of the client issues its HTTP request with the
specified method and path appended to the configured base URL:
`get_identity` GET `/api/identity`, `sign` POST `/api/sign`, `encrypt`
POST `/api/encrypt`, `decrypt` POST `/api/decrypt`, and `check_balance`
GET `/api/balance`. -/
theorem operations_target_specified_method_and_path
    (c : AGIdentityClient) (message protocol data key_id counterparty ciphertext : String) :
    c.get_identity_request.method = .GET ∧
    c.get_identity_request.url = c.api_url ++ "/api/identity" ∧
    (c.sign_request message protocol).method = .POST ∧
    (c.sign_request message protocol).url = c.api_url ++ "/api/sign" ∧
    (c.encrypt_request data protocol key_id counterparty).method = .POST ∧
    (c.encrypt_request data protocol key_id counterparty).url = c.api_url ++ "/api/encrypt" ∧
    (c.decrypt_request ciphertext protocol key_id counterparty).method = .POST ∧
    (c.decrypt_request ciphertext protocol key_id counterparty).url = c.api_url ++ "/api/decrypt" ∧
    c.check_balance_request.method = .GET ∧
    c.check_balance_request.url = c.api_url ++ "/api/balance" :=
  ⟨rfl, rfl, rfl, rfl, rfl, rfl, rfl, rfl, rfl, rfl⟩

/-- C2: each POST operation sends exactly the specified JSON body with the
specified field names and order, the `key_id` parameter is serialized under
the JSON key `keyId`, and the defaults are `protocol="agent message"` for
`sign` and `protocol="agent memory"`, `key_id="default"`,
`counterparty="self"` for `encrypt` and `decrypt`. -/
theorem post_bodies_and_defaults
    (c : AGIdentityClient) (message protocol data key_id counterparty ciphertext : String) :
    (c.sign_request message protocol).body
      = some (.obj [("message", .str message), ("protocol", .str protocol)]) ∧
    (c.encrypt_request data protocol key_id counterparty).body
      = some (.obj [("data", .str data), ("protocol", .str protocol),
          ("keyId", .str key_id), ("counterparty", .str counterparty)]) ∧
    (c.decrypt_request ciphertext protocol key_id counterparty).body
      = some (.obj [("ciphertext", .str ciphertext), ("protocol", .str protocol),
          ("keyId", .str key_id), ("counterparty", .str counterparty)]) ∧
    c.sign_request message = c.sign_request message "agent message" ∧
    c.encrypt_request data = c.encrypt_request data "agent memory" "default" "self" ∧
    c.decrypt_request ciphertext = c.decrypt_request ciphertext "agent memory" "default" "self" ∧
    (∀ t : Transport, c.sign t message = c.sign t message "agent message") ∧
    (∀ t : Transport, c.encrypt t data = c.encrypt t data "agent memory" "default" "self") ∧
    (∀ t : Transport, c.decrypt t ciphertext
      = c.decrypt t ciphertext "agent memory" "default" "self") :=
  ⟨rfl, rfl, rfl, rfl, rfl, rfl, fun _ => rfl, fun _ => rfl, fun _ => rfl⟩

/-- C5: the only state of the client is the base URL stored at construction
(a client is exactly a constructed client with its own base URL), and every
operation returns the client unchanged, whatever the transport does. -/
theorem client_state_unchanged (c : AGIdentityClient) (t : Transport)
    (message protocol data key_id counterparty ciphertext : String) :
    c = AGIdentityClient.init c.api_url ∧
    (c.get_identity t).2 = c ∧
    (c.sign t message protocol).2 = c ∧
    (c.encrypt t data protocol key_id counterparty).2 = c ∧
    (c.decrypt t ciphertext protocol key_id counterparty).2 = c ∧
    (c.check_balance t).2 = c := by
  cases c
  exact ⟨rfl, rfl, rfl, rfl, rfl, rfl⟩

/-- C6: with no base URL supplied, construction stores the default
`http://localhost:3000`, a loopback address on the fixed port 3000; a
supplied base URL overrides the default and prefixes the URL of every
subsequent call. -/
theorem default_base_url_and_override (u : String) :
    AGID_API = "http://localhost:3000" ∧
    AGIdentityClient.init.api_url = "http://localhost:3000" ∧
    (AGIdentityClient.init u).api_url = u ∧
    (AGIdentityClient.init u).get_identity_request.url = u ++ "/api/identity" ∧
    (∀ m p, ((AGIdentityClient.init u).sign_request m p).url = u ++ "/api/sign") ∧
    (∀ d p k cp, ((AGIdentityClient.init u).encrypt_request d p k cp).url
      = u ++ "/api/encrypt") ∧
    (∀ ct p k cp, ((AGIdentityClient.init u).decrypt_request ct p k cp).url
      = u ++ "/api/decrypt") ∧
    (AGIdentityClient.init u).check_balance_request.url = u ++ "/api/balance" :=
  ⟨rfl, rfl, rfl, rfl, fun _ _ => rfl, fun _ _ _ _ => rfl, fun _ _ _ _ => rfl, rfl⟩

/-- C10: request construction is deterministic and depends only on the base
URL and the call arguments: two clients with the same base URL construct
identical requests for identical arguments, for every operation. -/
theorem request_construction_deterministic (c1 c2 : AGIdentityClient)
    (message protocol data key_id counterparty ciphertext : String)
    (h : c1.api_url = c2.api_url) :
    c1.get_identity_request = c2.get_identity_request ∧
    c1.sign_request message protocol = c2.sign_request message protocol ∧
    c1.encrypt_request data protocol key_id counterparty
      = c2.encrypt_request data protocol key_id counterparty ∧
    c1.decrypt_request ciphertext protocol key_id counterparty
      = c2.decrypt_request ciphertext protocol key_id counterparty ∧
    c1.check_balance_request = c2.check_balance_request := by
  cases c1
  cases c2
  cases h
  exact ⟨rfl, rfl, rfl, rfl, rfl⟩

/-- Witness for C10 at concrete inputs: a default-constructed client and a
client constructed with the explicit default URL build the same sign
request. -/
theorem request_construction_deterministic_witness :
    AGIdentityClient.init.sign_request "hello" "agent message"
      = (AGIdentityClient.init "http://localhost:3000").sign_request "hello" "agent message" :=
  (request_construction_deterministic AGIdentityClient.init
    (AGIdentityClient.init "http://localhost:3000")
    "hello" "agent message" "d" "k" "cp" "ct" rfl).2.1

/-- A transport whose responses carry a body that is not parseable JSON,
whatever the request. -/
def unparseableTransport : Transport := fun _ => .response 500 none

/-- A mocked transport for the identity endpoint scenario of the spec:
every request is answered 200 with the body from the mock. -/
def mockIdentityTransport : Transport :=
  fun _ => .response 200 (some (.obj [("publicKey", .str "02abc...")]))

/-- A decoding error can only come from the transport: whenever a sent
request produces an error, the transport either failed at the connection
level or answered with an unparseable body. No error originates in the
client before the request is sent. -/
theorem performRequest_error_from_transport (t : Transport) (req : HttpRequest) (e : PyError)
    (h : performRequest t req = .error e) :
    t req = .failure ∨ ∃ s, t req = .response s none := by
  rcases hreq : t req with _ | ⟨s, _ | j⟩
  · exact Or.inl rfl
  · exact Or.inr ⟨s, rfl⟩
  · simp [performRequest, hreq] at h

/-- Counterexample to C3: on a transport answering the identity request
with the non-success status 404 and a parseable JSON error body, the
client does not fail; `get_identity` returns the decoded body of the
failed response. -/
theorem non_success_status_returns_body_counterexample :
    notFoundTransport AGIdentityClient.init.get_identity_request
      = .response 404 (some (.obj [("error", .str "not found")])) ∧
    (AGIdentityClient.init.get_identity notFoundTransport).1
      = .ok (.obj [("error", .str "not found")]) :=
  ⟨rfl, rfl⟩

/-- C3 as amended: every operation fails with a network error exactly on
transport-level connection failure; the HTTP status of a response is
ignored, so on a non-success status with a parseable body the operation
returns the decoded body, and it fails with a JSON decode error exactly
when the body is unparseable, whatever the status. -/
theorem transport_failure_and_status_behavior (t : Transport) (c : AGIdentityClient)
    (message protocol data key_id counterparty ciphertext : String) :
    ((t c.get_identity_request = .failure →
        (c.get_identity t).1 = .error .networkError) ∧
      (∀ s j, t c.get_identity_request = .response s (some j) →
        (c.get_identity t).1 = .ok j) ∧
      (∀ s, t c.get_identity_request = .response s none →
        (c.get_identity t).1 = .error .jsonDecodeError)) ∧
    ((t (c.sign_request message protocol) = .failure →
        (c.sign t message protocol).1 = .error .networkError) ∧
      (∀ s j, t (c.sign_request message protocol) = .response s (some j) →
        (c.sign t message protocol).1 = .ok j) ∧
      (∀ s, t (c.sign_request message protocol) = .response s none →
        (c.sign t message protocol).1 = .error .jsonDecodeError)) ∧
    ((t (c.encrypt_request data protocol key_id counterparty) = .failure →
        (c.encrypt t data protocol key_id counterparty).1 = .error .networkError) ∧
      (∀ s j, t (c.encrypt_request data protocol key_id counterparty) = .response s (some j) →
        (c.encrypt t data protocol key_id counterparty).1 = .ok j) ∧
      (∀ s, t (c.encrypt_request data protocol key_id counterparty) = .response s none →
        (c.encrypt t data protocol key_id counterparty).1 = .error .jsonDecodeError)) ∧
    ((t (c.decrypt_request ciphertext protocol key_id counterparty) = .failure →
        (c.decrypt t ciphertext protocol key_id counterparty).1 = .error .networkError) ∧
      (∀ s j, t (c.decrypt_request ciphertext protocol key_id counterparty) = .response s (some j) →
        (c.decrypt t ciphertext protocol key_id counterparty).1 = .ok j) ∧
      (∀ s, t (c.decrypt_request ciphertext protocol key_id counterparty) = .response s none →
        (c.decrypt t ciphertext protocol key_id counterparty).1 = .error .jsonDecodeError)) ∧
    ((t c.check_balance_request = .failure →
        (c.check_balance t).1 = .error .networkError) ∧
      (∀ s j, t c.check_balance_request = .response s (some j) →
        (c.check_balance t).1 = .ok j) ∧
      (∀ s, t c.check_balance_request = .response s none →
        (c.check_balance t).1 = .error .jsonDecodeError)) :=
  ⟨performRequest_cases t c.get_identity_request,
   performRequest_cases t (c.sign_request message protocol),
   performRequest_cases t (c.encrypt_request data protocol key_id counterparty),
   performRequest_cases t (c.decrypt_request ciphertext protocol key_id counterparty),
   performRequest_cases t c.check_balance_request⟩

/-- Witness for the amended C3 at concrete transports: a connection failure
yields the network error, a 404 with parseable body yields that body, and
an unparseable 500 body yields the decode error. -/
theorem transport_failure_and_status_behavior_witness :
    (AGIdentityClient.init.get_identity downTransport).1 = .error .networkError ∧
    (AGIdentityClient.init.get_identity notFoundTransport).1
      = .ok (.obj [("error", .str "not found")]) ∧
    (AGIdentityClient.init.get_identity unparseableTransport).1 = .error .jsonDecodeError :=
  ⟨(transport_failure_and_status_behavior downTransport AGIdentityClient.init
      "m" "p" "d" "k" "cp" "ct").1.1 rfl,
   (transport_failure_and_status_behavior notFoundTransport AGIdentityClient.init
      "m" "p" "d" "k" "cp" "ct").1.2.1 404 (.obj [("error", .str "not found")]) rfl,
   (transport_failure_and_status_behavior unparseableTransport AGIdentityClient.init
      "m" "p" "d" "k" "cp" "ct").1.2.2 500 rfl⟩

/-- C4: whenever the response body parses as JSON, every operation returns
exactly that parsed object to the caller, with no validation, extraction
or transformation beyond the JSON decoding. -/
theorem parsed_body_returned_unchanged (t : Transport) (c : AGIdentityClient)
    (message protocol data key_id counterparty ciphertext : String) (s : Nat) (j : Json) :
    (t c.get_identity_request = .response s (some j) →
      (c.get_identity t).1 = .ok j) ∧
    (t (c.sign_request message protocol) = .response s (some j) →
      (c.sign t message protocol).1 = .ok j) ∧
    (t (c.encrypt_request data protocol key_id counterparty) = .response s (some j) →
      (c.encrypt t data protocol key_id counterparty).1 = .ok j) ∧
    (t (c.decrypt_request ciphertext protocol key_id counterparty) = .response s (some j) →
      (c.decrypt t ciphertext protocol key_id counterparty).1 = .ok j) ∧
    (t c.check_balance_request = .response s (some j) →
      (c.check_balance t).1 = .ok j) :=
  ⟨(performRequest_cases t c.get_identity_request).2.1 s j,
   (performRequest_cases t (c.sign_request message protocol)).2.1 s j,
   (performRequest_cases t (c.encrypt_request data protocol key_id counterparty)).2.1 s j,
   (performRequest_cases t (c.decrypt_request ciphertext protocol key_id counterparty)).2.1 s j,
   (performRequest_cases t c.check_balance_request).2.1 s j⟩

/-- Witness for C4, the mocked-identity scenario of the spec: against a
service answering with a publicKey of `02abc...`, `get_identity` returns
the object unchanged and its publicKey field is exactly that string. -/
theorem parsed_body_returned_unchanged_witness :
    (AGIdentityClient.init.get_identity mockIdentityTransport).1
      = .ok (.obj [("publicKey", .str "02abc...")]) ∧
    (Json.obj [("publicKey", .str "02abc...")]).getItem "publicKey"
      = .ok (.str "02abc...") :=
  ⟨(parsed_body_returned_unchanged mockIdentityTransport AGIdentityClient.init
      "m" "p" "d" "k" "cp" "ct" 200 (.obj [("publicKey", .str "02abc...")])).1 rfl,
   rfl⟩

/-- C9: the client validates nothing locally. With the empty string as the
text argument, `sign`, `encrypt` and `decrypt` still place that value in
the JSON body and send the request; the call succeeds whenever the
transport answers with a parseable body, and every error a call surfaces
originates in the transport (connection failure or unparseable body), never
in a local precondition check before the request is sent. -/
theorem no_local_validation (t : Transport) (c : AGIdentityClient)
    (protocol key_id counterparty : String) :
    (c.sign_request "" protocol).body
      = some (.obj [("message", .str ""), ("protocol", .str protocol)]) ∧
    (∀ s j, t (c.sign_request "" protocol) = .response s (some j) →
      (c.sign t "" protocol).1 = .ok j) ∧
    (∀ e, (c.sign t "" protocol).1 = .error e →
      t (c.sign_request "" protocol) = .failure ∨
        ∃ s, t (c.sign_request "" protocol) = .response s none) ∧
    (c.encrypt_request "" protocol key_id counterparty).body
      = some (.obj [("data", .str ""), ("protocol", .str protocol),
          ("keyId", .str key_id), ("counterparty", .str counterparty)]) ∧
    (∀ s j, t (c.encrypt_request "" protocol key_id counterparty) = .response s (some j) →
      (c.encrypt t "" protocol key_id counterparty).1 = .ok j) ∧
    (∀ e, (c.encrypt t "" protocol key_id counterparty).1 = .error e →
      t (c.encrypt_request "" protocol key_id counterparty) = .failure ∨
        ∃ s, t (c.encrypt_request "" protocol key_id counterparty) = .response s none) ∧
    (c.decrypt_request "" protocol key_id counterparty).body
      = some (.obj [("ciphertext", .str ""), ("protocol", .str protocol),
          ("keyId", .str key_id), ("counterparty", .str counterparty)]) ∧
    (∀ s j, t (c.decrypt_request "" protocol key_id counterparty) = .response s (some j) →
      (c.decrypt t "" protocol key_id counterparty).1 = .ok j) ∧
    (∀ e, (c.decrypt t "" protocol key_id counterparty).1 = .error e →
      t (c.decrypt_request "" protocol key_id counterparty) = .failure ∨
        ∃ s, t (c.decrypt_request "" protocol key_id counterparty) = .response s none) :=
  ⟨rfl,
   (performRequest_cases t (c.sign_request "" protocol)).2.1,
   fun e h => performRequest_error_from_transport t (c.sign_request "" protocol) e h,
   rfl,
   (performRequest_cases t (c.encrypt_request "" protocol key_id counterparty)).2.1,
   fun e h => performRequest_error_from_transport t
     (c.encrypt_request "" protocol key_id counterparty) e h,
   rfl,
   (performRequest_cases t (c.decrypt_request "" protocol key_id counterparty)).2.1,
   fun e h => performRequest_error_from_transport t
     (c.decrypt_request "" protocol key_id counterparty) e h⟩

/-- Witness for C9 at concrete inputs: on a transport answering 200 with
the empty object, the three operations called with the empty string all
succeed and return the decoded body. -/
theorem no_local_validation_witness :
    (AGIdentityClient.init.sign emptyObjTransport "" "agent message").1 = .ok (.obj []) ∧
    (AGIdentityClient.init.encrypt emptyObjTransport ""
      "agent memory" "default" "self").1 = .ok (.obj []) ∧
    (AGIdentityClient.init.decrypt emptyObjTransport ""
      "agent memory" "default" "self").1 = .ok (.obj []) :=
  ⟨(no_local_validation emptyObjTransport AGIdentityClient.init
      "agent message" "default" "self").2.1 200 (.obj []) rfl,
   (no_local_validation emptyObjTransport AGIdentityClient.init
      "agent memory" "default" "self").2.2.2.2.1 200 (.obj []) rfl,
   (no_local_validation emptyObjTransport AGIdentityClient.init
      "agent memory" "default" "self").2.2.2.2.2.2.2.1 200 (.obj []) rfl⟩

/-- Sequencing in the driver: binding a successful step runs the
continuation on its value. -/
theorem except_bind_ok {α β : Type} (x : α) (f : α → Except PyError β) :
    (Except.ok x >>= f) = f x := rfl

/-- Sequencing in the driver: an uncaught exception short-circuits the rest
of the run. -/
theorem except_bind_error {α β : Type} (e : PyError) (f : α → Except PyError β) :
    ((Except.error e : Except PyError α) >>= f) = .error e := rfl

/-- Counterexample to C7: on a transport answering every request 200 with
the empty JSON object, every call of the client succeeds, yet the driver
terminates with an uncaught KeyError on the `publicKey` subscript and exits
1 rather than 0. -/
theorem driver_calls_succeed_but_exit_nonzero_counterexample :
    (AGIdentityClient.init.get_identity emptyObjTransport).1 = .ok (.obj []) ∧
    (AGIdentityClient.init.sign emptyObjTransport
      "I am a Python agent with onchain identity").1 = .ok (.obj []) ∧
    (AGIdentityClient.init.encrypt emptyObjTransport "My secret memory").1
      = .ok (.obj []) ∧
    (AGIdentityClient.init.decrypt emptyObjTransport "x").1 = .ok (.obj []) ∧
    (AGIdentityClient.init.check_balance emptyObjTransport).1 = .ok (.obj []) ∧
    pythonMain emptyObjTransport = .error (.keyError "publicKey") ∧
    pythonMainExit emptyObjTransport = 1 :=
  ⟨rfl, rfl, rfl, rfl, rfl, rfl, rfl⟩

/-- C7 as amended: the driver performs the five calls in order and catches
nothing. If the first call fails at the transport level the error
propagates and the process exits 1; if every call is answered with a
parseable body carrying the field the driver accesses (text where the
driver slices it), the run completes and the process exits 0; the exit
code is always 0 or 1, and any uncaught error exits 1. Calls alone
succeeding is not enough for exit 0: the accessed fields must be present
(see the counterexample). -/
theorem driver_exit_behavior (t : Transport)
    (pk sg ct : String) (pt bal : Json) (s1 s2 s3 s4 s5 : Nat) :
    (t AGIdentityClient.init.get_identity_request = .failure →
      pythonMain t = .error .networkError ∧ pythonMainExit t = 1) ∧
    (t AGIdentityClient.init.get_identity_request
        = .response s1 (some (.obj [("publicKey", .str pk)])) →
      t (AGIdentityClient.init.sign_request "I am a Python agent with onchain identity")
        = .response s2 (some (.obj [("signature", .str sg)])) →
      t (AGIdentityClient.init.encrypt_request "My secret memory")
        = .response s3 (some (.obj [("ciphertext", .str ct)])) →
      t (AGIdentityClient.init.decrypt_request ct)
        = .response s4 (some (.obj [("plaintext", pt)])) →
      t AGIdentityClient.init.check_balance_request
        = .response s5 (some (.obj [("balance", bal)])) →
      pythonMain t = .ok () ∧ pythonMainExit t = 0) ∧
    (pythonMainExit t = 0 ∨ pythonMainExit t = 1) ∧
    (∀ e, pythonMain t = .error e → pythonMainExit t = 1) := by
  refine ⟨fun h => ?_, fun h1 h2 h3 h4 h5 => ?_, ?_, fun e he => ?_⟩
  · have hm : pythonMain t = .error .networkError := by
      simp [pythonMain, AGIdentityClient.get_identity, performRequest, h,
        except_bind_error]
    exact ⟨hm, by simp [pythonMainExit, hm]⟩
  · have hm : pythonMain t = .ok () := by
      simp [pythonMain, AGIdentityClient.get_identity, AGIdentityClient.sign,
        AGIdentityClient.encrypt, AGIdentityClient.decrypt,
        AGIdentityClient.check_balance, performRequest, h1, h2, h3, h4, h5,
        except_bind_ok, except_bind_error, Json.getItem, lookupField, Json.asString]
    exact ⟨hm, by simp [pythonMainExit, hm]⟩
  · unfold pythonMainExit
    cases pythonMain t <;> simp
  · simp [pythonMainExit, he]

/-- A fully-populated mock service for the demonstration run: each endpoint
of the default base URL is answered 200 with the field the driver reads,
other requests fall through to the balance answer. -/
def goodDemoTransport : Transport := fun req =>
  if req.url = AGID_API ++ "/api/identity" then
    .response 200 (some (.obj [("publicKey", .str "pub")]))
  else if req.url = AGID_API ++ "/api/sign" then
    .response 200 (some (.obj [("signature", .str "sig")]))
  else if req.url = AGID_API ++ "/api/encrypt" then
    .response 200 (some (.obj [("ciphertext", .str "ct0")]))
  else if req.url = AGID_API ++ "/api/decrypt" then
    .response 200 (some (.obj [("plaintext", .str "My secret memory")]))
  else
    .response 200 (some (.obj [("balance", .num 21000)]))

/-- Witness for the amended C7 at concrete transports: against a
fully-populated mock service the driver exits 0, and against a dead
network the driver exits 1 with the network error propagated. -/
theorem driver_exit_behavior_witness :
    pythonMainExit goodDemoTransport = 0 ∧
    pythonMain downTransport = .error .networkError ∧
    pythonMainExit downTransport = 1 :=
  ⟨((driver_exit_behavior goodDemoTransport "pub" "sig" "ct0" (.str "My secret memory")
      (.num 21000) 200 200 200 200 200).2.1 rfl rfl rfl rfl rfl).2,
   ((driver_exit_behavior downTransport "pub" "sig" "ct0" (.str "My secret memory")
      (.num 21000) 200 200 200 200 200).1 rfl).1,
   ((driver_exit_behavior downTransport "pub" "sig" "ct0" (.str "My secret memory")
      (.num 21000) 200 200 200 200 200).1 rfl).2⟩

/-- C8: against any conforming service (one whose decryption inverts its
encryption under the same protocol, key identifier and counterparty, as
the spec requires), for every non-empty text and every context triple, the
ciphertext field returned by `encrypt` decrypts through `decrypt` to a
plaintext field equal to the original text. -/
theorem encrypt_decrypt_roundtrip (sv : SpecServer) (hsv : sv.roundTrip)
    (base p k cp d : String) (hd : d ≠ "") :
    ∃ ct : String,
      (AGIdentityClient.encrypt { api_url := base } (serverTransport sv) d p k cp).1
        = .ok (.obj [("ciphertext", .str ct)]) ∧
      (AGIdentityClient.decrypt { api_url := base } (serverTransport sv) ct p k cp).1
        = .ok (.obj [("plaintext", .str d)]) := by
  refine ⟨sv.enc p k cp d, rfl, ?_⟩
  have hdec := hsv p k cp d hd
  simp [AGIdentityClient.decrypt, AGIdentityClient.decrypt_request, performRequest,
    serverTransport, hdec]

/-- Witness for C8 at concrete inputs: with the identity scheme as the
conforming service, encrypting and then decrypting the text of the
demonstration run, under its default context, returns that text. -/
theorem encrypt_decrypt_roundtrip_witness :
    ∃ ct : String,
      (AGIdentityClient.encrypt { api_url := "http://localhost:3000" }
          (serverTransport idServer) "My secret memory" "agent memory" "default" "self").1
        = .ok (.obj [("ciphertext", .str ct)]) ∧
      (AGIdentityClient.decrypt { api_url := "http://localhost:3000" }
          (serverTransport idServer) ct "agent memory" "default" "self").1
        = .ok (.obj [("plaintext", .str "My secret memory")]) :=
  encrypt_decrypt_roundtrip idServer (fun _ _ _ _ _ => rfl)
    "http://localhost:3000" "agent memory" "default" "self" "My secret memory"
    (by decide)
